import Mathlib

/-!
# Telemetry start-up and shutdown sequencing of `app/main.go`

A shallow embedding of `src/app/main.go`: the package-level registry
`shutdownFuncs`, the closures `shutdown` and `handleErr` of `run`, the two
provider initialisers, `getenv`, and `run` itself with its deferred shutdown.

Go `error` values are `Option GoError` (`none` is `nil`).  The libraries the
program calls (exporter constructors, resource builders, the providers'
`Shutdown` methods, the HTTP server) are inputs, collected in `World`.
What the program does to the outside is recorded in `State.trace`.
-/

namespace App

/-! ## Errors: `errors.Join` and `errors.Is` -/

/-- A non-nil Go error: either an error value produced by a library
(`atom`, identified by a number, comparable, with no `Unwrap` and no `Is`
method), or the `*joinError` that `errors.Join` allocates. -/
inductive GoError where
  | atom (id : Nat)
  | joinError (errs : List GoError)

/-- Go `error`: `none` is `nil`. -/
abbrev Error := Option GoError

mutual
/-- Go `==` on two non-nil errors.  Two joins are identified when their
members are the same, member by member. -/
def GoError.same : GoError → GoError → Bool
  | .atom a, .atom b => a == b
  | .joinError xs, .joinError ys => GoError.sameList xs ys
  | _, _ => false
/-- Member-wise `GoError.same`. -/
def GoError.sameList : List GoError → List GoError → Bool
  | [], [] => true
  | x :: xs, y :: ys => GoError.same x y && GoError.sameList xs ys
  | _, _ => false
end

/-- `errors.Join(errs...)`: `nil` when every argument is `nil`, otherwise a
`joinError` holding the non-nil arguments in order. -/
def errorsJoin (errs : List Error) : Error :=
  let kept := errs.filterMap id
  if kept.isEmpty then none else some (GoError.joinError kept)

mutual
/-- The loop `is(err, target, true)` of package `errors`: `err == target`, or
for a join, some member for which `is` holds. -/
def isErr (target : GoError) : GoError → Bool
  | .atom a => GoError.same (.atom a) target
  | .joinError es => GoError.same (.joinError es) target || isAny target es
/-- The `for _, err := range x.Unwrap()` loop of `is`. -/
def isAny (target : GoError) : List GoError → Bool
  | [] => false
  | e :: es => isErr target e || isAny target es
end

/-- `errors.Is(err, target)`. -/
def errorsIs (err target : Error) : Bool :=
  match err, target with
  | none, none => true
  | some e, some t => isErr t e
  | _, _ => false

/-! ## Program state -/

/-- A `context.Context` value. -/
inductive Context where
  | background
  | derived (id : Nat)
  deriving DecidableEq, Repr

/-- Which closure a registry entry is. -/
inductive FnId where
  | meterProvider
  | tracerProvider
  | other (id : Nat)
  deriving DecidableEq, Repr

/-- An element of `shutdownFuncs`: a `func(context.Context) error`. -/
structure ShutdownFunc where
  id : FnId
  call : Context → Error

/-- A resource: its attributes, key and value. -/
abbrev Resource := List (String × String)

/-- What the program does to the outside, in order. -/
inductive Event where
  | shutdownCall (fn : FnId) (ctx : Context)
  | newMetricProviderCall
  | newTraceProviderCall
  | setMeterProvider (res : Resource)
  | setTracerProvider (res : Resource)
  | serverStart (address : String)
  | loggerFatal
  deriving DecidableEq, Repr

/-- The package variable `shutdownFuncs`, the named result `err` of `run`,
and the events so far. -/
structure State where
  shutdownFuncs : List ShutdownFunc
  err : Error
  trace : List Event

/-- The state at process start: `shutdownFuncs` is nil. -/
def State.init : State := { shutdownFuncs := [], err := none, trace := [] }

/-- The behaviour of everything `main.go` calls but does not define. -/
structure World where
  /-- the process environment, `KEY=value` entries in order -/
  environ : List (String × String)
  /-- the error result of `otlpmetricgrpc.New` -/
  otlpmetricgrpcNew : Error
  /-- the attributes of `resource.Default()` -/
  resourceDefault : Resource
  /-- the error result of `resource.Merge` -/
  resourceMergeErr : Error
  /-- the meter provider's `Shutdown` -/
  meterShutdown : Context → Error
  /-- the error result of `otlptracegrpc.New` -/
  otlptracegrpcNew : Error
  /-- the attributes found by `gcp.NewDetector()` -/
  gcpDetected : Resource
  /-- the attributes added by `resource.WithTelemetrySDK()` -/
  telemetrySDK : Resource
  /-- the error result of `resource.New` -/
  resourceNewErr : Error
  /-- the tracer provider's `Shutdown` -/
  tracerShutdown : Context → Error
  /-- what `e.Start` returns; `none` when it never returns -/
  serverStart : Option Error

/-! ## `shutdown` and `handleErr` -/

/-- The `for _, fn := range shutdownFuncs` loop of `shutdown`, carrying the
local `err` and the trace. -/
def shutdownLoop (ctx : Context) : List ShutdownFunc → Error → List Event → Error × List Event
  | [], err, tr => (err, tr)
  | fn :: fns, err, tr =>
      shutdownLoop ctx fns (errorsJoin [err, fn.call ctx]) (tr ++ [Event.shutdownCall fn.id ctx])

/-- The closure `shutdown` of `run`. -/
def shutdown (ctx : Context) (st : State) : State × Error :=
  let r := shutdownLoop ctx st.shutdownFuncs none st.trace
  ({ st with shutdownFuncs := [], trace := r.2 }, r.1)

/-- The closure `handleErr` of `run`; `ctx` is the variable it captures. -/
def handleErr (ctx : Context) (inErr : Error) (st : State) : State :=
  let r := shutdown ctx st
  { r.1 with err := errorsJoin [inErr, r.2] }

/-! ## `getenv` and the resources -/

/-- `os.Getenv`: the value of the first entry for `key`, empty when unset. -/
def osGetenv (environ : List (String × String)) (key : String) : String :=
  (environ.lookup key).getD ""

/-- `getenv(key, fallback)`. -/
def getenv (environ : List (String × String)) (key fallback : String) : String :=
  let value := osGetenv environ key
  if value.utf8ByteSize == 0 then fallback else value

/-- `resource.Merge(a, b)` on attributes: on a common key `b` overwrites. -/
def resourceMerge (a b : Resource) : Resource :=
  a.filter (fun kv => !(b.any (fun kv2 => kv2.1 == kv.1))) ++ b

/-- The value of attribute `key` in a resource. -/
def Resource.get (r : Resource) (key : String) : Option String :=
  r.lookup key

/-- `semconv.ServiceName(v)` and `semconv.ServiceNameKey.String(v)`. -/
def serviceNameAttr (v : String) : String × String := ("service.name", v)

/-- The `res` of `newMetricProvider`:
`resource.Merge(resource.Default(), resource.NewWithAttributes(..., semconv.ServiceName(serviceName)))`. -/
def metricResource (w : World) : Resource :=
  let serviceName := getenv w.environ "SERVICE_NAME" "sample-app"
  resourceMerge w.resourceDefault [serviceNameAttr serviceName]

/-- The `res` of `newTraceProvider`: `resource.New` with the GCP detector,
the telemetry SDK attributes and the service name, merged in that order. -/
def traceResource (w : World) : Resource :=
  let serviceName := getenv w.environ "SERVICE_NAME" "sample-app"
  resourceMerge (resourceMerge (resourceMerge [] w.gcpDetected) w.telemetrySDK)
    [serviceNameAttr serviceName]

/-! ## The provider initialisers and `run` -/

/-- `newMetricProvider(ctx, handleErr)`. -/
def newMetricProvider (w : World) (handleErr : Error → State → State) (st : State) :
    State × Error :=
  let st := { st with trace := st.trace ++ [Event.newMetricProviderCall] }
  match w.otlpmetricgrpcNew with
  | some e => (handleErr (some e) st, some e)
  | none =>
    let res := metricResource w
    match w.resourceMergeErr with
    | some e => (handleErr (some e) st, some e)
    | none =>
      ({ st with
          trace := st.trace ++ [Event.setMeterProvider res]
          shutdownFuncs := st.shutdownFuncs ++ [⟨FnId.meterProvider, w.meterShutdown⟩] },
        none)

/-- `newTraceProvider(ctx, handleErr)`. -/
def newTraceProvider (w : World) (handleErr : Error → State → State) (st : State) :
    State × Error :=
  let st := { st with trace := st.trace ++ [Event.newTraceProviderCall] }
  match w.otlptracegrpcNew with
  | some e => (handleErr (some e) st, some e)
  | none =>
    let res := traceResource w
    match w.resourceNewErr with
    | some e => (handleErr (some e) st, some e)
    | none =>
      ({ st with
          trace := st.trace ++ [Event.setTracerProvider res]
          shutdownFuncs := st.shutdownFuncs ++ [⟨FnId.tracerProvider, w.tracerShutdown⟩] },
        none)

/-- How the body of `run` ends. -/
inductive Control where
  | ret
  | exit (code : Nat)
  | block
  deriving DecidableEq, Repr

/-- How `run` ends: it returns `err` to `main`, or the process exits inside
it, or it waits in `e.Start` for ever. -/
inductive Outcome where
  | returned (err : Error)
  | exited (code : Nat)
  | blocked

/-- The body of `run` after the `defer` statement, up to the point where it
returns, exits or blocks. -/
def runBody (w : World) (st : State) : State × Control :=
  let ctx := Context.background
  -- err = newMetricProvider(ctx, handleErr)
  let m := newMetricProvider w (handleErr ctx) st
  let st1 := { m.1 with err := m.2 }
  match m.2 with
  | some e => (handleErr ctx (some e) st1, Control.ret)
  | none =>
    -- err = newTraceProvider(ctx, handleErr)
    let t := newTraceProvider w (handleErr ctx) st1
    let st2 := { t.1 with err := t.2 }
    match t.2 with
    | some e => (handleErr ctx (some e) st2, Control.ret)
    | none =>
      -- e.Logger.Fatal(e.Start(":" + os.Getenv("ENV_PORT")))
      let st3 := { st2 with
        trace := st2.trace ++ [Event.serverStart (":" ++ osGetenv w.environ "ENV_PORT")] }
      match w.serverStart with
      | none => (st3, Control.block)
      | some _ => ({ st3 with trace := st3.trace ++ [Event.loggerFatal] }, Control.exit 1)

/-- The function `run`: its body, then, when the body returns, the deferred
`err = errors.Join(err, shutdown(context.Background()))`.  `os.Exit` inside
`e.Logger.Fatal` ends the process without running deferred functions. -/
def run (w : World) (st : State) : State × Outcome :=
  let b := runBody w st
  match b.2 with
  | Control.exit code => (b.1, Outcome.exited code)
  | Control.block => (b.1, Outcome.blocked)
  | Control.ret =>
    let r := shutdown Context.background b.1
    let err := errorsJoin [b.1.err, r.2]
    ({ r.1 with err := err }, Outcome.returned err)

/-- Whether an event is a call of the registry entry `fn`, with any context. -/
def Event.isShutdownCallOf (fn : FnId) : Event → Bool
  | .shutdownCall g _ => g == fn
  | _ => false

/-! ## Concrete inputs -/

/-- A registry of three functions; the first and the third fail. -/
def registryTwoFail : State :=
  { shutdownFuncs :=
      [⟨FnId.other 0, fun _ => some (GoError.atom 10)⟩,
       ⟨FnId.other 1, fun _ => none⟩,
       ⟨FnId.other 2, fun _ => some (GoError.atom 12)⟩]
    err := none
    trace := [] }

/-- A world in which every library call succeeds, the server listens on
port 8080 and `e.Start` never returns. -/
def worldAllGood : World :=
  { environ := [("ENV_PORT", "8080")]
    otlpmetricgrpcNew := none
    resourceDefault :=
      [("service.name", "unknown_service:app"), ("telemetry.sdk.language", "go")]
    resourceMergeErr := none
    meterShutdown := fun _ => none
    otlptracegrpcNew := none
    gcpDetected := []
    telemetrySDK := [("telemetry.sdk.language", "go")]
    resourceNewErr := none
    tracerShutdown := fun _ => none
    serverStart := none }

/-- The metric provider initialises, its `Shutdown` fails with error 1, and
`otlptracegrpc.New` fails with error 2. -/
def worldTraceExporterFails : World :=
  { worldAllGood with
    meterShutdown := fun _ => some (GoError.atom 1)
    otlptracegrpcNew := some (GoError.atom 2) }

/-- The metric provider initialises and `resource.New` fails with error 4. -/
def worldResourceNewFails : World :=
  { worldAllGood with resourceNewErr := some (GoError.atom 4) }

/-- Both providers initialise and `e.Start` returns error 3. -/
def worldServerStartFails : World :=
  { worldAllGood with serverStart := some (some (GoError.atom 3)) }

/-- The call `otlpmetricgrpc.New` fails with error 5. -/
def worldMetricExporterFails : World :=
  { worldAllGood with otlpmetricgrpcNew := some (GoError.atom 5) }

/-- The process runs on GCP: the detector finds `cloud.provider`. -/
def worldOnGcp : World :=
  { worldAllGood with gcpDetected := [("cloud.provider", "gcp")] }

/-- The environment sets `SERVICE_NAME=foo`. -/
def worldServiceFoo : World :=
  { worldAllGood with environ := [("SERVICE_NAME", "foo")] }

/-! ## Lemmas on errors -/

mutual
theorem GoError.same_refl : ∀ e : GoError, GoError.same e e = true
  | .atom a => by simp [GoError.same]
  | .joinError es => by simp [GoError.same, GoError.sameList_refl es]
theorem GoError.sameList_refl : ∀ es : List GoError, GoError.sameList es es = true
  | [] => by simp [GoError.sameList]
  | e :: es => by simp [GoError.sameList, GoError.same_refl e, GoError.sameList_refl es]
end

theorem isErr_self (e : GoError) : isErr e e = true := by
  cases e <;> simp [isErr, GoError.same_refl]

theorem isErr_joinError_of_isAny (t : GoError) (es : List GoError) (h : isAny t es = true) :
    isErr t (GoError.joinError es) = true := by
  simp [isErr, h]

theorem errorsJoin_pair_eq_none (a b : Error) :
    errorsJoin [a, b] = none ↔ a = none ∧ b = none := by
  cases a <;> cases b <;> simp [errorsJoin]

theorem errorsIs_join_right (a : Error) (e : GoError) :
    errorsIs (errorsJoin [a, some e]) (some e) = true := by
  cases a <;> simp [errorsJoin, errorsIs, isErr, isAny, isErr_self]

theorem errorsIs_join_left (e : GoError) (b : Error) :
    errorsIs (errorsJoin [some e, b]) (some e) = true := by
  cases b <;> simp [errorsJoin, errorsIs, isErr, isAny, isErr_self]

theorem errorsIs_join_mono (a b : Error) (t : GoError) (h : errorsIs a (some t) = true) :
    errorsIs (errorsJoin [a, b]) (some t) = true := by
  cases a with
  | none => simp [errorsIs] at h
  | some x =>
    have hx : isErr t x = true := by simpa [errorsIs] using h
    cases b <;> simp [errorsJoin, errorsIs, isErr, isAny, hx]

/-! ## Lemmas on the shutdown loop -/

theorem shutdownLoop_trace (ctx : Context) (fns : List ShutdownFunc) (acc : Error)
    (tr : List Event) :
    (shutdownLoop ctx fns acc tr).2 = tr ++ fns.map (fun fn => Event.shutdownCall fn.id ctx) := by
  induction fns generalizing acc tr with
  | nil => simp [shutdownLoop]
  | cons fn fns ih => simp [shutdownLoop, ih]

theorem shutdownLoop_eq_none (ctx : Context) (fns : List ShutdownFunc) (acc : Error)
    (tr : List Event) :
    (shutdownLoop ctx fns acc tr).1 = none ↔ acc = none ∧ ∀ fn ∈ fns, fn.call ctx = none := by
  induction fns generalizing acc tr with
  | nil => simp [shutdownLoop]
  | cons fn fns ih =>
    simp only [shutdownLoop, ih, errorsJoin_pair_eq_none, List.mem_cons, forall_eq_or_imp]
    tauto

theorem shutdownLoop_keeps (ctx : Context) (fns : List ShutdownFunc) (acc : Error)
    (tr : List Event) (t : GoError) (h : errorsIs acc (some t) = true) :
    errorsIs (shutdownLoop ctx fns acc tr).1 (some t) = true := by
  induction fns generalizing acc tr with
  | nil => simpa [shutdownLoop] using h
  | cons fn fns ih =>
    simp only [shutdownLoop]
    exact ih _ _ (errorsIs_join_mono acc (fn.call ctx) t h)

theorem shutdownLoop_contains (ctx : Context) (fns : List ShutdownFunc) (acc : Error)
    (tr : List Event) (fn : ShutdownFunc) (hfn : fn ∈ fns) (e : GoError)
    (he : fn.call ctx = some e) :
    errorsIs (shutdownLoop ctx fns acc tr).1 (some e) = true := by
  induction fns generalizing acc tr with
  | nil => simp at hfn
  | cons g fns ih =>
    simp only [shutdownLoop]
    rcases List.mem_cons.mp hfn with h | h
    · subst h
      apply shutdownLoop_keeps
      rw [he]
      exact errorsIs_join_right acc e
    · exact ih _ _ h

theorem shutdown_nil (ctx : Context) (st : State) (h : st.shutdownFuncs = []) :
    shutdown ctx st = (st, none) := by
  cases st
  simp_all [shutdown, shutdownLoop]

/-! ## Lemmas on `getenv` and the resources -/

theorem utf8ByteSize_eq_zero (s : String) : s.utf8ByteSize = 0 ↔ s = "" := by
  cases s with
  | mk l =>
    cases l with
    | nil => simp [String.utf8ByteSize, String.utf8ByteSize.go]
    | cons c cs =>
      have hc := Char.utf8Size_pos c
      have hne : (String.mk (c :: cs) = "") ↔ False := by
        constructor
        · intro h
          have h2 := congrArg String.data h
          simp at h2
        · intro h; exact h.elim
      simp only [String.utf8ByteSize, String.utf8ByteSize.go, hne]
      constructor
      · intro h; omega
      · intro h; exact h.elim

theorem getenv_of_empty (environ : List (String × String)) (key fallback : String)
    (h : osGetenv environ key = "") : getenv environ key fallback = fallback := by
  simp [getenv, h, String.utf8ByteSize, String.utf8ByteSize.go]

theorem getenv_of_nonempty (environ : List (String × String)) (key fallback : String)
    (h : osGetenv environ key ≠ "") : getenv environ key fallback = osGetenv environ key := by
  have hz : (osGetenv environ key).utf8ByteSize ≠ 0 := fun hz =>
    h ((utf8ByteSize_eq_zero _).mp hz)
  simp [getenv, hz]

theorem lookup_filter_ne (a : Resource) (k : String) :
    (a.filter (fun kv => !(k == kv.1))).lookup k = none := by
  induction a with
  | nil => simp
  | cons kv a ih =>
    obtain ⟨k2, v2⟩ := kv
    by_cases hk : k = k2
    · subst hk
      simp [List.filter, ih]
    · have hb : (k == k2) = false := by simpa using hk
      simp [List.filter, hb, List.lookup, ih]

theorem resourceMerge_service_name (a : Resource) (v : String) :
    Resource.get (resourceMerge a [serviceNameAttr v]) "service.name" = some v := by
  have h := lookup_filter_ne a "service.name"
  simp [Resource.get, resourceMerge, serviceNameAttr, List.lookup_append, h]

/-! ## The shutdown aggregator -/

/-- C1: a single call `shutdown(ctx)` invokes every function of the registry
exactly once, in registration order, each with the `ctx` given to `shutdown`:
the events it adds are the registry mapped to calls, whatever each function
returns, so a failing function does not stop the ones after it. -/
theorem shutdown_invokes_all_in_order (ctx : Context) (st : State) :
    (shutdown ctx st).1.trace
      = st.trace ++ st.shutdownFuncs.map (fun fn => Event.shutdownCall fn.id ctx) := by
  simp [shutdown, shutdownLoop_trace]

/-- C2: the error `shutdown(ctx)` returns is nil exactly when no registered
function returns an error, and otherwise `errors.Is` finds in it the error of
every failing function, not only the first. -/
theorem shutdown_error_combines_all (ctx : Context) (st : State) :
    ((shutdown ctx st).2 = none ↔ ∀ fn ∈ st.shutdownFuncs, fn.call ctx = none) ∧
    (∀ fn ∈ st.shutdownFuncs, ∀ e : GoError, fn.call ctx = some e →
      errorsIs (shutdown ctx st).2 (some e) = true) := by
  constructor
  · simp [shutdown, shutdownLoop_eq_none]
  · intro fn hfn e he
    exact shutdownLoop_contains ctx st.shutdownFuncs none st.trace fn hfn e he

/-- C2 at `registryTwoFail`: the combined error is not nil and holds both the
first and the last function's error. -/
theorem shutdown_error_combines_all_witness :
    (shutdown Context.background registryTwoFail).2 ≠ none ∧
    errorsIs (shutdown Context.background registryTwoFail).2 (some (GoError.atom 10)) = true ∧
    errorsIs (shutdown Context.background registryTwoFail).2 (some (GoError.atom 12)) = true := by
  have h := shutdown_error_combines_all Context.background registryTwoFail
  refine ⟨?_, ?_, ?_⟩
  · intro hn
    have h0 := h.1.mp hn ⟨FnId.other 0, fun _ => some (GoError.atom 10)⟩
      (by simp [registryTwoFail])
    simp at h0
  · exact h.2 ⟨FnId.other 0, fun _ => some (GoError.atom 10)⟩ (by simp [registryTwoFail])
      (GoError.atom 10) rfl
  · exact h.2 ⟨FnId.other 2, fun _ => some (GoError.atom 12)⟩ (by simp [registryTwoFail])
      (GoError.atom 12) rfl

/-- C3: after `shutdown(ctx)` the registry is empty, and a second call
`shutdown(ctx')` changes nothing (no function is invoked) and returns nil. -/
theorem shutdown_idempotent (ctx ctx' : Context) (st : State) :
    (shutdown ctx st).1.shutdownFuncs = [] ∧
    shutdown ctx' (shutdown ctx st).1 = ((shutdown ctx st).1, none) := by
  have h : (shutdown ctx st).1.shutdownFuncs = [] := by simp [shutdown]
  exact ⟨h, shutdown_nil ctx' _ h⟩

/-- C4: for a non-nil `inErr`, `handleErr(inErr)` invokes every registered
function with the captured `ctx`, empties the registry, and sets the result
`err` of `run` to `errors.Join(inErr, shutdown(ctx))`, which is not nil and in
which `errors.Is` finds `inErr`, whatever the shutdown returned. -/
theorem handleErr_composes (ctx : Context) (inErr : GoError) (st : State) :
    (handleErr ctx (some inErr) st).trace
      = st.trace ++ st.shutdownFuncs.map (fun fn => Event.shutdownCall fn.id ctx) ∧
    (handleErr ctx (some inErr) st).shutdownFuncs = [] ∧
    (handleErr ctx (some inErr) st).err = errorsJoin [some inErr, (shutdown ctx st).2] ∧
    (handleErr ctx (some inErr) st).err ≠ none ∧
    errorsIs (handleErr ctx (some inErr) st).err (some inErr) = true := by
  refine ⟨?_, ?_, ?_, ?_, ?_⟩
  · simp [handleErr, shutdown, shutdownLoop_trace]
  · simp [handleErr, shutdown]
  · simp [handleErr]
  · simp [handleErr, errorsJoin_pair_eq_none]
  · simp only [handleErr]
    exact errorsIs_join_left inErr _

/-! ## `run`: failures during start-up -/

/-- C5, evaluated at `worldTraceExporterFails`: the meter provider's shutdown
function is invoked by the first `handleErr` and returns error 1, yet the error
`run` returns holds only error 2 of `otlptracegrpc.New`; `errors.Is` does not
find error 1 in it. -/
theorem run_trace_failure_drops_shutdown_error :
    (run worldTraceExporterFails State.init).2
      = Outcome.returned (some (GoError.joinError [GoError.joinError [GoError.atom 2]])) ∧
    Event.shutdownCall FnId.meterProvider Context.background
      ∈ (run worldTraceExporterFails State.init).1.trace ∧
    worldTraceExporterFails.meterShutdown Context.background = some (GoError.atom 1) ∧
    errorsIs (some (GoError.joinError [GoError.joinError [GoError.atom 2]]))
      (some (GoError.atom 2)) = true ∧
    errorsIs (some (GoError.joinError [GoError.joinError [GoError.atom 2]]))
      (some (GoError.atom 1)) = false := by
  refine ⟨rfl, by decide, rfl, by decide, by decide⟩

/-- C6: when `newMetricProvider` succeeds and `newTraceProvider` then fails
with `e` (at the exporter or at the resource), the registry holds the meter
provider's shutdown function when `newTraceProvider` is entered, `run` returns,
and its whole trace is: metric initialisation, installation of the meter
provider, trace initialisation, one call of the meter provider's shutdown.
That function is invoked exactly once and the registry ends empty. -/
theorem run_later_failure_shuts_meter_once (w : World) (e : GoError)
    (hm : w.otlpmetricgrpcNew = none) (hr : w.resourceMergeErr = none)
    (ht : w.otlptracegrpcNew = some e ∨
      (w.otlptracegrpcNew = none ∧ w.resourceNewErr = some e)) :
    (newMetricProvider w (handleErr Context.background) State.init).1.shutdownFuncs.map
        ShutdownFunc.id = [FnId.meterProvider] ∧
    (∃ err, (run w State.init).2 = Outcome.returned err) ∧
    (run w State.init).1.trace
      = [Event.newMetricProviderCall, Event.setMeterProvider (metricResource w),
         Event.newTraceProviderCall,
         Event.shutdownCall FnId.meterProvider Context.background] ∧
    ((run w State.init).1.trace.filter
        (Event.isShutdownCallOf FnId.meterProvider)).length = 1 ∧
    (run w State.init).1.shutdownFuncs = [] := by
  rcases ht with ht | ⟨ht1, ht2⟩
  · simp [run, runBody, newMetricProvider, newTraceProvider, handleErr, shutdown,
      shutdownLoop, State.init, hm, hr, ht, Event.isShutdownCallOf]
  · simp [run, runBody, newMetricProvider, newTraceProvider, handleErr, shutdown,
      shutdownLoop, State.init, hm, hr, ht1, ht2, Event.isShutdownCallOf]

/-- C6 at `worldResourceNewFails`, where `resource.New` fails. -/
theorem run_later_failure_shuts_meter_once_witness :
    ((run worldResourceNewFails State.init).1.trace.filter
        (Event.isShutdownCallOf FnId.meterProvider)).length = 1 ∧
    (run worldResourceNewFails State.init).1.shutdownFuncs = [] :=
  have h := run_later_failure_shuts_meter_once worldResourceNewFails (GoError.atom 4)
    rfl rfl (Or.inr ⟨rfl, rfl⟩)
  ⟨h.2.2.2.1, h.2.2.2.2⟩

/-- C7, evaluated at `worldServerStartFails`: both providers are installed
and registered, `e.Start` returns an error, `e.Logger.Fatal` ends the process
with status 1, and no shutdown function has been invoked: the trace has no
shutdown call and both functions are still in the registry. -/
theorem run_server_failure_skips_shutdown :
    (run worldServerStartFails State.init).2 = Outcome.exited 1 ∧
    (run worldServerStartFails State.init).1.trace
      = [Event.newMetricProviderCall,
         Event.setMeterProvider (metricResource worldServerStartFails),
         Event.newTraceProviderCall,
         Event.setTracerProvider (traceResource worldServerStartFails),
         Event.serverStart ":8080", Event.loggerFatal] ∧
    (run worldServerStartFails State.init).1.shutdownFuncs.map ShutdownFunc.id
      = [FnId.meterProvider, FnId.tracerProvider] ∧
    (∀ fn ctx, Event.shutdownCall fn ctx ∉ (run worldServerStartFails State.init).1.trace) := by
  refine ⟨rfl, by decide, by decide, ?_⟩
  intro fn ctx h
  have ht : (run worldServerStartFails State.init).1.trace
      = [Event.newMetricProviderCall,
         Event.setMeterProvider (metricResource worldServerStartFails),
         Event.newTraceProviderCall,
         Event.setTracerProvider (traceResource worldServerStartFails),
         Event.serverStart ":8080", Event.loggerFatal] := by decide
  rw [ht] at h
  simp at h

/-- C8: when `otlpmetricgrpc.New` fails with `e`, `run` returns a non-nil
error in which `errors.Is` finds `e`, and the only event of the run is the
entry into `newMetricProvider`: `newTraceProvider` is not called, no provider
is installed, the server is not started. -/
theorem run_metric_exporter_failure (w : World) (e : GoError)
    (h : w.otlpmetricgrpcNew = some e) :
    (∃ r, (run w State.init).2 = Outcome.returned (some r) ∧
      errorsIs (some r) (some e) = true) ∧
    (run w State.init).1.trace = [Event.newMetricProviderCall] := by
  constructor
  · refine ⟨GoError.joinError [GoError.joinError [e]], ?_, ?_⟩
    · simp [run, runBody, newMetricProvider, handleErr, shutdown, shutdownLoop,
        State.init, h, errorsJoin]
    · simp [errorsIs, isErr, isAny, isErr_self]
  · simp [run, runBody, newMetricProvider, handleErr, shutdown, shutdownLoop,
      State.init, h]

/-- C8 at `worldMetricExporterFails`. -/
theorem run_metric_exporter_failure_witness :
    (∃ r, (run worldMetricExporterFails State.init).2 = Outcome.returned (some r) ∧
      errorsIs (some r) (some (GoError.atom 5)) = true) ∧
    (run worldMetricExporterFails State.init).1.trace = [Event.newMetricProviderCall] :=
  run_metric_exporter_failure worldMetricExporterFails (GoError.atom 5) rfl

/-! ## `getenv` and the service name -/

/-- C9: `os.Getenv` is empty exactly when the variable is unset or set to
the empty string; `getenv` then returns the fallback, and otherwise the value
unchanged.  So the `service.name` of the metric and of the trace resource is
`sample-app` when `SERVICE_NAME` is empty and `foo` when `SERVICE_NAME=foo`. -/
theorem getenv_fallback_and_service_name :
    (∀ (environ : List (String × String)) (key : String),
      osGetenv environ key = "" ↔
        (environ.lookup key = none ∨ environ.lookup key = some "")) ∧
    (∀ (environ : List (String × String)) (key fallback : String),
      osGetenv environ key = "" → getenv environ key fallback = fallback) ∧
    (∀ (environ : List (String × String)) (key fallback : String),
      osGetenv environ key ≠ "" → getenv environ key fallback = osGetenv environ key) ∧
    (∀ w : World, osGetenv w.environ "SERVICE_NAME" = "" →
      (metricResource w).get "service.name" = some "sample-app" ∧
      (traceResource w).get "service.name" = some "sample-app") ∧
    (∀ w : World, osGetenv w.environ "SERVICE_NAME" = "foo" →
      (metricResource w).get "service.name" = some "foo" ∧
      (traceResource w).get "service.name" = some "foo") := by
  refine ⟨?_, getenv_of_empty, getenv_of_nonempty, ?_, ?_⟩
  · intro environ key
    cases hl : environ.lookup key <;> simp [osGetenv, hl]
  · intro w h
    simp [metricResource, traceResource, resourceMerge_service_name, getenv_of_empty _ _ _ h]
  · intro w h
    have hne : osGetenv w.environ "SERVICE_NAME" ≠ "" := by rw [h]; decide
    simp [metricResource, traceResource, resourceMerge_service_name,
      getenv_of_nonempty _ _ _ hne, h]

/-- C9 at an empty environment and at `SERVICE_NAME=foo`. -/
theorem getenv_fallback_and_service_name_witness :
    getenv [] "SERVICE_NAME" "sample-app" = "sample-app" ∧
    getenv [("SERVICE_NAME", "foo")] "SERVICE_NAME" "sample-app" = "foo" ∧
    (metricResource worldAllGood).get "service.name" = some "sample-app" ∧
    (traceResource worldAllGood).get "service.name" = some "sample-app" ∧
    (metricResource worldServiceFoo).get "service.name" = some "foo" ∧
    (traceResource worldServiceFoo).get "service.name" = some "foo" :=
  have h := getenv_fallback_and_service_name
  have hfoo : osGetenv [("SERVICE_NAME", "foo")] "SERVICE_NAME" = "foo" := by decide
  ⟨h.2.1 [] "SERVICE_NAME" "sample-app" (by decide),
   (h.2.2.1 [("SERVICE_NAME", "foo")] "SERVICE_NAME" "sample-app" (by decide)).trans hfoo,
   (h.2.2.2.1 worldAllGood (by decide)).1, (h.2.2.2.1 worldAllGood (by decide)).2,
   (h.2.2.2.2 worldServiceFoo (by decide)).1, (h.2.2.2.2 worldServiceFoo (by decide)).2⟩

/-! ## The two resources -/

/-- C10 fails at `worldOnGcp`: the tracer provider's resource has the
detected `cloud.provider`, the meter provider's resource has no such
attribute, so the two resources differ. -/
theorem resources_differ_on_gcp :
    (traceResource worldOnGcp).get "cloud.provider" = some "gcp" ∧
    (metricResource worldOnGcp).get "cloud.provider" = none ∧
    metricResource worldOnGcp ≠ traceResource worldOnGcp := by
  refine ⟨by decide, by decide, by decide⟩

/-- C10 as amended: each provider builds its own resource, and for every
environment both carry the same `service.name`, the value of
`getenv("SERVICE_NAME", "sample-app")`. -/
theorem resources_agree_on_service_name (w : World) :
    (metricResource w).get "service.name"
      = some (getenv w.environ "SERVICE_NAME" "sample-app") ∧
    (traceResource w).get "service.name"
      = some (getenv w.environ "SERVICE_NAME" "sample-app") := by
  simp [metricResource, traceResource, resourceMerge_service_name]

end App
